import Mathlib

/-!
Verification development for the cisco-nso-mcp-server repository.

The repository has two MCP server variants (the inline `src/mcp_server.py`
and the delegating `src/cisco_nso_mcp_server/server.py` built on
`src/services/devices.py`) and two chat clients (`src/app.py` and
`src/mcp_test_client.py`).  This file gives a shallow embedding of the
tool and client logic: external effects (the NSO REST backend, the LLM,
the json module) are oracles passed in as parameters, and the observable
behaviour (responses, message histories, backend-call traces) is computed
by total Lean functions translated from the Python source.
-/

namespace NsoMcp

/-- Python/JSON style values as produced and consumed by the tools. -/
inductive PyVal where
  | str : String → PyVal
  | nat : Nat → PyVal
  | list : List PyVal → PyVal
  | dict : List (String × PyVal) → PyVal
  | pyNone : PyVal

/-- Python exceptions relevant to the code: the classes named in the
`except` clauses plus a catch-all for every other `Exception`.  In the
`requests` library, `HTTPError` is a subclass of `RequestException`. -/
inductive PyExc where
  | valueError : String → PyExc
  | httpError : String → PyExc
  | requestException : String → PyExc
  | otherExc : String → PyExc
deriving DecidableEq

/-- `str(e)` of an exception. -/
def PyExc.msg : PyExc → String
  | .valueError m => m
  | .httpError m => m
  | .requestException m => m
  | .otherExc m => m

/-- Whether `except (ValueError, HTTPError, RequestException)` in
`src/mcp_server.py` catches the exception. -/
def PyExc.matchesValueHttpRequest : PyExc → Bool
  | .valueError _ => true
  | .httpError _ => true
  | .requestException _ => true
  | .otherExc _ => false

/-- Whether `except (ValueError, RequestException)` in
`src/services/devices.py` catches the exception; `HTTPError` is caught
because it is a subclass of `RequestException`. -/
def PyExc.matchesValueRequest : PyExc → Bool
  | .valueError _ => true
  | .httpError _ => true
  | .requestException _ => true
  | .otherExc _ => false

/-- Python truthiness of a value, as used by `if not params` and
`if not device_name`. -/
def PyVal.truthy : PyVal → Bool
  | .str s => !(s == "")
  | .nat n => !(n == 0)
  | .list xs => !xs.isEmpty
  | .dict fs => !fs.isEmpty
  | .pyNone => false

/-- Python `str()` as interpolated into f-strings by the source.  The code
only interpolates device names, which are strings in practice; for the
remaining shapes we use a plain structural rendering. -/
def PyVal.pyStr : PyVal → String
  | .str s => s
  | .nat n => toString n
  | .list _ => "[...]"
  | .dict _ => "{...}"
  | .pyNone => "None"

/-- Key lookup in a dict value; any non-dict has no keys. -/
def PyVal.lookup : PyVal → String → Option PyVal
  | .dict fields, k => fields.lookup k
  | _, _ => Option.none

/-- Whether the value is a Python dict. -/
def PyVal.isDict : PyVal → Bool
  | .dict _ => true
  | _ => false

/-- The keyword arguments of `NSORestconfClient(...)` in both server
variants. -/
structure NSORestconfClientConfig where
  scheme : String
  address : String
  port : Nat
  timeout : Nat
  username : String
  password : String
deriving DecidableEq

/-- The `client = NSORestconfClient(...)` set up at module scope in
`src/mcp_server.py` (and identically inside `main()` in
`src/cisco_nso_mcp_server/server.py`). -/
def client : NSORestconfClientConfig :=
  { scheme := "http", address := "localhost", port := 8080
    timeout := 10, username := "admin", password := "admin" }

/-- `Devices(client)`: the helper only wraps the client. -/
structure DevicesHelper where
  client : NSORestconfClientConfig
deriving DecidableEq

/-- `devices_helper = Devices(client)`. -/
def devices_helper : DevicesHelper := { client := client }

/-- A tool registration made by an `@mcp.tool(...)` decorator. -/
structure ToolReg where
  name : String
deriving DecidableEq

/-- The registry kept by the `FastMCP` object: tools and resources in
registration order. -/
structure FastMCP where
  serverName : String
  tools : List ToolReg
  resources : List String
deriving DecidableEq

/-- `@mcp.tool(...)` appends one tool registration. -/
def FastMCP.addTool (m : FastMCP) (t : ToolReg) : FastMCP :=
  { m with tools := m.tools ++ [t] }

/-- `@mcp.resource(...)` appends one resource registration. -/
def FastMCP.addResource (m : FastMCP) (r : String) : FastMCP :=
  { m with resources := m.resources ++ [r] }

/-- Server-side state visible to a tool invocation: the NSO client
configuration, the devices helper, the FastMCP registry, and the trace of
backend calls made so far (`nedBackendCalls` counts calls to
`devices_helper.get_device_ned_ids`; `platformBackendCalls` lists, in
order, the device-name argument of each call to
`devices_helper.get_device_platform`). -/
structure ServerState where
  client : NSORestconfClientConfig
  devices_helper : DevicesHelper
  mcp : FastMCP
  nedBackendCalls : Nat
  platformBackendCalls : List PyVal

/-- The behaviour of the NSO REST backend, as an oracle: the answer of the
nth call to each `devices_helper` method, either a returned value or a
raised exception. -/
structure Backend where
  nedIds : Nat → Except PyExc (List String)
  platform : Nat → PyVal → Except PyExc PyVal

/-- `asyncio.to_thread(f, *args)` runs the blocking call on a worker
thread and awaits its result; in this sequential embedding it is the call
itself. -/
def asyncioToThread {α : Type} (call : Except PyExc α) : Except PyExc α := call

/-- One call to `devices_helper.get_device_ned_ids` through
`asyncio.to_thread`, recorded in the trace. -/
def callNedIds (backend : Backend) (s : ServerState) :
    Except PyExc (List String) × ServerState :=
  (asyncioToThread (backend.nedIds s.nedBackendCalls),
   { s with nedBackendCalls := s.nedBackendCalls + 1 })

/-- One call to `devices_helper.get_device_platform(device_name)` through
`asyncio.to_thread`, recorded in the trace. -/
def callPlatform (backend : Backend) (device_name : PyVal) (s : ServerState) :
    Except PyExc PyVal × ServerState :=
  (asyncioToThread (backend.platform s.platformBackendCalls.length device_name),
   { s with platformBackendCalls := s.platformBackendCalls ++ [device_name] })

/-- The shared parameter validation
`if not params or "device_name" not in params` of both platform tools:
yields the device name when validation passes.  An empty dict is falsy in
Python and also has no keys, so for dict-or-None parameters the check is
exactly a failed lookup. -/
def validatedDeviceName : Option (List (String × PyVal)) → Option PyVal
  | Option.none => Option.none
  | some fields => fields.lookup "device_name"

namespace McpServer

/-- The module-level registry of `src/mcp_server.py`: `FastMCP("nso-mcp")`
followed by the two `@mcp.tool` decorators, in source order. -/
def mcp : FastMCP :=
  (({ serverName := "nso-mcp", tools := [], resources := [] } : FastMCP).addTool
    { name := "get_device_ned_ids" }).addTool
    { name := "get_device_platform" }

/-- `get_device_ned_ids` in `src/mcp_server.py`: one backend call, a
success dict on return, an error dict on either `except` arm. -/
def get_device_ned_ids (backend : Backend) (ts : String) (s : ServerState) :
    PyVal × ServerState :=
  let r := callNedIds backend s
  match r.1 with
  | .ok device_ned_ids =>
      (PyVal.dict
        [("status", .str "success"),
         ("data", .dict [("device_ned_ids", .list (device_ned_ids.map PyVal.str))]),
         ("metadata", .dict [("timestamp", .str ts),
                             ("count", .nat device_ned_ids.length)])], r.2)
  | .error e =>
      if e.matchesValueHttpRequest then
        (PyVal.dict
          [("device_ned_ids", .list []),
           ("status", .str "error"),
           ("error_message", .str e.msg)], r.2)
      else
        (PyVal.dict
          [("device_ned_ids", .list []),
           ("status", .str "error"),
           ("error_message", .str ("Unexpected error: " ++ e.msg))], r.2)

/-- `get_device_platform` in `src/mcp_server.py`: parameter validation,
then one backend call, with the two `except` arms. -/
def get_device_platform (backend : Backend) (ts : String)
    (params : Option (List (String × PyVal))) (s : ServerState) :
    PyVal × ServerState :=
  match validatedDeviceName params with
  | Option.none =>
      (PyVal.dict
        [("status", .str "error"),
         ("error_message", .str "Missing required parameter: device_name")], s)
  | some device_name =>
      let r := callPlatform backend device_name s
      match r.1 with
      | .ok device_platform =>
          (PyVal.dict
            [("status", .str "success"),
             ("data", .dict [("device_platform", device_platform)]),
             ("metadata", .dict [("timestamp", .str ts),
                                 ("device", device_name)])], r.2)
      | .error e =>
          if e.matchesValueHttpRequest then
            (PyVal.dict
              [("status", .str "error"),
               ("error_message", .str e.msg)], r.2)
          else
            (PyVal.dict
              [("status", .str "error"),
               ("error_message", .str ("Unexpected error: " ++ e.msg))], r.2)

/-- Dispatch of a tool invocation by registered name, as the FastMCP
framework would route it; names outside the registry hit no tool. -/
def dispatch (backend : Backend) (ts : String) (toolName : String)
    (params : Option (List (String × PyVal))) (s : ServerState) :
    Option (PyVal × ServerState) :=
  if toolName = "get_device_ned_ids" then some (get_device_ned_ids backend ts s)
  else if toolName = "get_device_platform" then
    some (get_device_platform backend ts params s)
  else Option.none

end McpServer

namespace Services

/-- `get_device_platform` in `src/services/devices.py`.  It raises
`ValueError` when the device name is falsy or when the backend call
raises, so its result is an `Except`. -/
def get_device_platform (backend : Backend) (ts : String) (device_name : PyVal)
    (s : ServerState) : Except PyExc PyVal × ServerState :=
  if device_name.truthy = false then
    (.error (PyExc.valueError "Device name is required"), s)
  else
    let r := callPlatform backend device_name s
    match r.1 with
    | .ok device_platform =>
        (.ok (PyVal.dict
          [("status", .str "success"),
           ("data", .dict [("device_platform", device_platform)]),
           ("metadata", .dict [("timestamp", .str ts),
                               ("device", device_name)])]), r.2)
    | .error e =>
        (.error (PyExc.valueError
          ("Failed to retrieve platform for device " ++ device_name.pyStr
            ++ ": " ++ e.msg)), r.2)

/-- `get_device_ned_ids` in `src/services/devices.py`.  It catches every
exception itself and always returns a dict, but its Python type can raise,
so the result stays an `Except` for the caller to match on. -/
def get_device_ned_ids (backend : Backend) (ts : String) (s : ServerState) :
    Except PyExc PyVal × ServerState :=
  let r := callNedIds backend s
  match r.1 with
  | .ok device_ned_ids =>
      (.ok (PyVal.dict
        [("status", .str "success"),
         ("data", .dict [("device_ned_ids", .list (device_ned_ids.map PyVal.str))]),
         ("metadata", .dict [("timestamp", .str ts),
                             ("count", .nat device_ned_ids.length)])]), r.2)
  | .error e =>
      if e.matchesValueRequest then
        (.ok (PyVal.dict
          [("device_ned_ids", .list []),
           ("status", .str "error"),
           ("error_message", .str e.msg)]), r.2)
      else
        (.ok (PyVal.dict
          [("device_ned_ids", .list []),
           ("status", .str "error"),
           ("error_message", .str ("Unexpected error: " ++ e.msg))]), r.2)

end Services

namespace CiscoNsoMcpServer

/-- The registry built by `main()` in `src/cisco_nso_mcp_server/server.py`:
`FastMCP("nso-mcp", ...)`, then `register_resources` adds the one
environment resource, then `register_tools` adds the platform tool and the
NED-IDs tool, in that order. -/
def mcpAfterMain : FastMCP :=
  ((({ serverName := "nso-mcp", tools := [], resources := [] } : FastMCP).addResource
      "nso_environment").addTool
    { name := "get_device_platform_tool" }).addTool
    { name := "get_device_ned_ids_tool" }

/-- `get_device_platform_tool` in `src/cisco_nso_mcp_server/server.py`:
validates the parameters, delegates to the service layer, and turns any
raised exception into an error dict. -/
def get_device_platform_tool (backend : Backend) (ts : String)
    (params : Option (List (String × PyVal))) (s : ServerState) :
    PyVal × ServerState :=
  match validatedDeviceName params with
  | Option.none =>
      (PyVal.dict
        [("status", .str "error"),
         ("error_message", .str "Missing required parameter: device_name")], s)
  | some device_name =>
      let r := Services.get_device_platform backend ts device_name s
      match r.1 with
      | .ok v => (v, r.2)
      | .error e =>
          (PyVal.dict
            [("status", .str "error"),
             ("error_message", .str e.msg)], r.2)

/-- `get_device_ned_ids_tool` in `src/cisco_nso_mcp_server/server.py`:
delegates to the service layer and turns any raised exception into an
error dict (the service in fact never raises).  The optional `params`
argument is accepted and ignored, as in the source. -/
def get_device_ned_ids_tool (backend : Backend) (ts : String)
    (params : Option (List (String × PyVal))) (s : ServerState) :
    PyVal × ServerState :=
  let r := Services.get_device_ned_ids backend ts s
  match r.1 with
  | .ok v => (v, r.2)
  | .error e =>
      (PyVal.dict
        [("status", .str "error"),
         ("error_message", .str e.msg)], r.2)

end CiscoNsoMcpServer

/-! ### Client side: `src/app.py` and `src/mcp_test_client.py` -/

/-- One tool call requested by the LLM in its first response
(`tool_call.id`, `tool_call.function.name`,
`tool_call.function.arguments`, the latter a JSON string). -/
structure ToolCallReq where
  id : String
  name : String
  arguments : String
deriving DecidableEq

/-- The message object of the first (non-streaming) chat completion:
`content` is a string or `None`, `tool_calls` a possibly empty list
(Python `None` is modelled as the empty list, matching its truthiness). -/
structure LLMMessage where
  content : Option String
  tool_calls : List ToolCallReq

/-- One chunk of a streaming chat completion; `content` is
`chunk.choices[0].delta.content`, a string or `None`. -/
structure Chunk where
  content : Option String

/-- Conversation messages as shaped by the two clients.  An assistant
tool-call message carries `(id, name, arguments)` triples; a tool message
carries the tool-call id and the tool result (stored as `str(result)` by
`app.py` and as `result.content` by `mcp_test_client.py`; the embedding
keeps the result value itself, the SDK rendering being external). -/
inductive Msg where
  | system : String → Msg
  | user : String → Msg
  | assistantContent : String → Msg
  | assistantToolCalls : List (String × String × String) → Msg
  | tool : String → PyVal → Msg

/-- A chat-completion request issued by a client: the message list, whether
the tool list was passed, and whether streaming was requested. -/
structure LLMRequest where
  messages : List Msg
  toolsGiven : Bool
  stream : Bool

/-- The external `json` module, as the clients use it: `loads` may fail
with `JSONDecodeError`, `dumps` renders a value. -/
structure JsonLib where
  loads : String → Except Unit PyVal
  dumps : PyVal → String

/-- Argument handling shared verbatim by both clients: an all-whitespace
`arguments` string or a `JSONDecodeError` gives `{}`, and the parsed value
is wrapped as `{"params": tool_args}`. -/
def parseToolArgs (json : JsonLib) (arguments : String) : PyVal :=
  let base :=
    if arguments.trim = "" then PyVal.dict []
    else
      match json.loads arguments with
      | .ok v => v
      | .error _ => PyVal.dict []
  PyVal.dict [("params", base)]

/-- One iteration of the tool-call loop shared by both clients: parse and
wrap the arguments, call the tool through the MCP session, then append the
assistant tool-call message and the tool-result message to the history and
record the executed call. -/
def toolCallStep (json : JsonLib) (oracle : String → PyVal → PyVal)
    (acc : List Msg × List (String × PyVal)) (tc : ToolCallReq) :
    List Msg × List (String × PyVal) :=
  let targs := parseToolArgs json tc.arguments
  let result := oracle tc.name targs
  (acc.1 ++ [Msg.assistantToolCalls [(tc.id, tc.name, json.dumps targs)],
             Msg.tool tc.id result],
   acc.2 ++ [(tc.name, targs)])

/-- The tool-call loop over the first response, started from the current
history with no calls executed yet. -/
def toolCallLoop (json : JsonLib) (oracle : String → PyVal → PyVal)
    (tcs : List ToolCallReq) (ms : List Msg) :
    List Msg × List (String × PyVal) :=
  tcs.foldl (toolCallStep json oracle) (ms, [])

/-- The two history messages one tool call contributes. -/
def toolExchange (json : JsonLib) (oracle : String → PyVal → PyVal)
    (tc : ToolCallReq) : List Msg :=
  let targs := parseToolArgs json tc.arguments
  [Msg.assistantToolCalls [(tc.id, tc.name, json.dumps targs)],
   Msg.tool tc.id (oracle tc.name targs)]

/-- `handle_streaming_response` in `src/app.py` (and the equivalent chunk
loop in `src/mcp_test_client.py`): accumulate, in arrival order, every
chunk whose `delta.content` is truthy. -/
def streamConcat (chunks : List Chunk) : String :=
  chunks.foldl
    (fun acc c =>
      match c.content with
      | some piece => if piece == "" then acc else acc ++ piece
      | Option.none => acc) ""

/-- The concatenation of the non-empty content chunks, written as a direct
specification rather than as the accumulating loop of the source. -/
def nonEmptyContentConcat (chunks : List Chunk) : String :=
  ((chunks.filterMap Chunk.content).filter (fun piece => !(piece == ""))).foldr
    (fun piece acc => piece ++ acc) ""

namespace App

/-- Everything observable about one handled prompt in
`Application.render_chat` of `src/app.py`: the first (non-streaming)
request, the follow-up streaming request when one is made, the tool calls
executed through the MCP session in order, the session history afterwards,
and the assistant text rendered to the user. -/
structure ChatOutcome where
  firstRequest : LLMRequest
  followupRequest : Option LLMRequest
  executedCalls : List (String × PyVal)
  messages : List Msg
  delivered : String

/-- The body of `if prompt:` in `Application.render_chat`
(`src/app.py`): append the user message, issue the first request with
tools and no streaming, then branch on `has_content`/`has_tool_calls`;
`firstResp` is the LLM answer to the first request and `chunks` the stream
answering the follow-up request. -/
def renderChatPrompt (json : JsonLib) (history : List Msg) (prompt : String)
    (firstResp : LLMMessage) (oracle : String → PyVal → PyVal)
    (chunks : List Chunk) : ChatOutcome :=
  let messages0 := history ++ [Msg.user prompt]
  let firstReq : LLMRequest :=
    { messages := messages0, toolsGiven := true, stream := false }
  let has_content := firstResp.content.isSome
  let has_tool_calls := !firstResp.tool_calls.isEmpty
  if !has_content && has_tool_calls then
    let looped := toolCallLoop json oracle firstResp.tool_calls messages0
    let followup : LLMRequest :=
      { messages := looped.1, toolsGiven := false, stream := true }
    let final_content := streamConcat chunks
    if !(final_content == "") then
      { firstRequest := firstReq, followupRequest := some followup
        executedCalls := looped.2
        messages := looped.1 ++ [Msg.assistantContent final_content]
        delivered := final_content }
    else
      { firstRequest := firstReq, followupRequest := some followup
        executedCalls := looped.2
        messages := looped.1 ++
          [Msg.assistantContent "No response content received from the model."]
        delivered := "No response content received from the model." }
  else if has_content then
    { firstRequest := firstReq, followupRequest := Option.none
      executedCalls := []
      messages := messages0 ++ [Msg.assistantContent (firstResp.content.getD "")]
      delivered := firstResp.content.getD "" }
  else
    { firstRequest := firstReq, followupRequest := Option.none
      executedCalls := []
      messages := messages0 ++
        [Msg.assistantContent "Received an empty response from the model."]
      delivered := "Received an empty response from the model." }

/-- The `if prompt:` guard around the handling above: a falsy (empty)
prompt is not handled at all. -/
def handleUserInput (json : JsonLib) (history : List Msg) (prompt : String)
    (firstResp : LLMMessage) (oracle : String → PyVal → PyVal)
    (chunks : List Chunk) : Option ChatOutcome :=
  if prompt == "" then Option.none
  else some (renderChatPrompt json history prompt firstResp oracle chunks)

end App

namespace TestClient

/-- Everything observable about one `MCPClient.process_query` call in
`src/mcp_test_client.py`: the first request, the optional follow-up
streaming request, the executed tool calls, the final local message list,
the text printed chunk by chunk, and the value returned (Python returns
`None` when neither branch returns, modelled as `Option.none`). -/
structure QueryOutcome where
  firstRequest : LLMRequest
  followupRequest : Option LLMRequest
  executedCalls : List (String × PyVal)
  messages : List Msg
  printed : String
  returned : Option String

/-- `MCPClient.process_query` (`src/mcp_test_client.py`): a fresh message
list of system prompt plus the query, the first request with tools, then
either the tool-call branch (when `content` is `None` and there are tool
calls), the implicit `None` fall-through (content `None`, no tool calls),
or the streaming-only branch (content present). -/
def process_query (json : JsonLib) (system_prompt : String) (query : String)
    (firstResp : LLMMessage) (oracle : String → PyVal → PyVal)
    (chunks : List Chunk) : QueryOutcome :=
  let messages0 := [Msg.system system_prompt, Msg.user query]
  let firstReq : LLMRequest :=
    { messages := messages0, toolsGiven := true, stream := false }
  match firstResp.content with
  | Option.none =>
      if !firstResp.tool_calls.isEmpty then
        let looped := toolCallLoop json oracle firstResp.tool_calls messages0
        let followup : LLMRequest :=
          { messages := looped.1, toolsGiven := false, stream := true }
        { firstRequest := firstReq, followupRequest := some followup
          executedCalls := looped.2
          messages := looped.1
          printed := streamConcat chunks
          returned := some "" }
      else
        { firstRequest := firstReq, followupRequest := Option.none
          executedCalls := []
          messages := messages0
          printed := ""
          returned := Option.none }
  | some _ =>
      let followup : LLMRequest :=
        { messages := messages0, toolsGiven := false, stream := true }
      { firstRequest := firstReq, followupRequest := some followup
        executedCalls := []
        messages := messages0
        printed := streamConcat chunks
        returned := some "" }

end TestClient

/-! ### Helper lemmas -/

/-- The tool-call fold, from any starting history and call record, appends
one exchange and one recorded call per requested tool call, in order. -/
lemma foldl_toolCallStep (json : JsonLib) (oracle : String → PyVal → PyVal)
    (tcs : List ToolCallReq) (ms : List Msg) (acc : List (String × PyVal)) :
    tcs.foldl (toolCallStep json oracle) (ms, acc) =
      (ms ++ tcs.flatMap (toolExchange json oracle),
       acc ++ tcs.map (fun tc => (tc.name, parseToolArgs json tc.arguments))) := by
  induction tcs generalizing ms acc with
  | nil => simp
  | cons tc rest ih =>
      simp only [List.foldl_cons, List.flatMap_cons, List.map_cons, toolCallStep]
      rw [ih]
      simp [toolExchange, List.append_assoc]

/-- The tool-call loop characterized: history extended by the per-call
exchanges, executed calls exactly the requested ones in order. -/
lemma toolCallLoop_spec (json : JsonLib) (oracle : String → PyVal → PyVal)
    (tcs : List ToolCallReq) (ms : List Msg) :
    toolCallLoop json oracle tcs ms =
      (ms ++ tcs.flatMap (toolExchange json oracle),
       tcs.map (fun tc => (tc.name, parseToolArgs json tc.arguments))) := by
  simpa [toolCallLoop] using foldl_toolCallStep json oracle tcs ms []

/-- The chunk-accumulating fold, from any starting accumulator, appends
exactly the non-empty content pieces in order. -/
lemma foldl_streamChunk (chunks : List Chunk) (acc : String) :
    chunks.foldl
      (fun acc c =>
        match c.content with
        | some piece => if piece == "" then acc else acc ++ piece
        | Option.none => acc) acc = acc ++ nonEmptyContentConcat chunks := by
  induction chunks generalizing acc with
  | nil => simp [nonEmptyContentConcat]
  | cons c rest ih =>
      cases hc : c.content with
      | none =>
          simp only [List.foldl_cons, hc]
          rw [ih]
          simp [nonEmptyContentConcat, List.filterMap_cons, hc]
      | some piece =>
          by_cases hp : piece = ""
          · subst hp
            simp only [List.foldl_cons, hc]
            rw [ih]
            simp [nonEmptyContentConcat, List.filterMap_cons, hc]
          · simp only [List.foldl_cons, hc, if_neg (by simpa using hp)]
            rw [ih]
            simp [nonEmptyContentConcat, List.filterMap_cons, hc, hp,
              String.append_assoc]

/-- The accumulating stream loop of the source equals the direct
concatenation of the non-empty content chunks. -/
lemma streamConcat_eq (chunks : List Chunk) :
    streamConcat chunks = nonEmptyContentConcat chunks := by
  simpa [streamConcat] using foldl_streamChunk chunks ""

/-! ### Observation helpers and concrete sample inputs -/

/-- The `status` field of a response dict. -/
def responseStatus (v : PyVal) : Option PyVal := v.lookup "status"

/-- The `error_message` field of a response dict. -/
def responseErrMsg (v : PyVal) : Option PyVal := v.lookup "error_message"

/-- The `data.device_ned_ids` field of a response dict. -/
def dataNedIds (v : PyVal) : Option PyVal :=
  (v.lookup "data").bind (fun d => d.lookup "device_ned_ids")

/-- The `metadata.count` field of a response dict. -/
def metaCount (v : PyVal) : Option PyVal :=
  (v.lookup "metadata").bind (fun d => d.lookup "count")

/-- The configuration part of the server state: everything except the
backend-call trace. -/
def ServerState.config (s : ServerState) :
    NSORestconfClientConfig × DevicesHelper × FastMCP :=
  (s.client, s.devices_helper, s.mcp)

/-- The server state right after module start-up, before any invocation. -/
def initState : ServerState :=
  { client := client, devices_helper := devices_helper, mcp := McpServer.mcp
    nedBackendCalls := 0, platformBackendCalls := [] }

/-- A concrete backend whose calls return data, for instantiating the
universally quantified theorems. -/
def sampleBackend : Backend :=
  { nedIds := fun _ => .ok ["cisco-ios-cli-6.77", "cisco-iosxr-cli-7.38"]
    platform := fun _ _ => .ok (PyVal.dict [("name", .str "ios")]) }

/-- A concrete backend whose calls raise `HTTPError`, for instantiating
the error-path theorems. -/
def failingBackend : Backend :=
  { nedIds := fun _ => .error (PyExc.httpError "401 Client Error")
    platform := fun _ _ => .error (PyExc.httpError "404 Client Error") }

/-- A concrete json oracle for instantiating the client theorems. -/
def sampleJson : JsonLib :=
  { loads := fun _ => .error (), dumps := fun _ => "null" }

/-- A concrete MCP tool oracle for instantiating the client theorems. -/
def sampleOracle : String → PyVal → PyVal :=
  fun _ _ => PyVal.dict [("status", PyVal.str "success")]

/-! ### Claims -/

/-- C1: every invocation of `get_device_ned_ids` in `src/mcp_server.py`
makes exactly one call to `devices_helper.get_device_ned_ids`, and every
invocation of `get_device_platform` whose parameter validation succeeds
makes exactly one call to `devices_helper.get_device_platform` with the
validated device name — whatever the backend returns or raises, with no
retry and no caching; neither tool touches the other backend method. -/
theorem c1_validated_invocation_makes_exactly_one_backend_call
    (backend : Backend) (ts : String) (s : ServerState)
    (params : Option (List (String × PyVal))) (dn : PyVal)
    (h : validatedDeviceName params = some dn) :
    (McpServer.get_device_ned_ids backend ts s).2.nedBackendCalls
        = s.nedBackendCalls + 1
    ∧ (McpServer.get_device_ned_ids backend ts s).2.platformBackendCalls
        = s.platformBackendCalls
    ∧ (McpServer.get_device_platform backend ts params s).2.platformBackendCalls
        = s.platformBackendCalls ++ [dn]
    ∧ (McpServer.get_device_platform backend ts params s).2.nedBackendCalls
        = s.nedBackendCalls := by
  refine ⟨?_, ?_, ?_, ?_⟩
  · unfold McpServer.get_device_ned_ids
    simp only [callNedIds, asyncioToThread]
    cases backend.nedIds s.nedBackendCalls with
    | ok ids => rfl
    | error e => by_cases he : e.matchesValueHttpRequest <;> simp [he]
  · unfold McpServer.get_device_ned_ids
    simp only [callNedIds, asyncioToThread]
    cases backend.nedIds s.nedBackendCalls with
    | ok ids => rfl
    | error e => by_cases he : e.matchesValueHttpRequest <;> simp [he]
  · unfold McpServer.get_device_platform
    rw [h]
    simp only [callPlatform, asyncioToThread]
    cases backend.platform s.platformBackendCalls.length dn with
    | ok v => rfl
    | error e => by_cases he : e.matchesValueHttpRequest <;> simp [he]
  · unfold McpServer.get_device_platform
    rw [h]
    simp only [callPlatform, asyncioToThread]
    cases backend.platform s.platformBackendCalls.length dn with
    | ok v => rfl
    | error e => by_cases he : e.matchesValueHttpRequest <;> simp [he]

/-- Witness for C1 at a concrete backend, parameter dict, and state. -/
theorem c1_witness :
    (McpServer.get_device_ned_ids sampleBackend "t" initState).2.nedBackendCalls
        = initState.nedBackendCalls + 1
    ∧ (McpServer.get_device_ned_ids sampleBackend "t" initState).2.platformBackendCalls
        = initState.platformBackendCalls
    ∧ (McpServer.get_device_platform sampleBackend "t"
        (some [("device_name", PyVal.str "ios-0")]) initState).2.platformBackendCalls
        = initState.platformBackendCalls ++ [PyVal.str "ios-0"]
    ∧ (McpServer.get_device_platform sampleBackend "t"
        (some [("device_name", PyVal.str "ios-0")]) initState).2.nedBackendCalls
        = initState.nedBackendCalls :=
  c1_validated_invocation_makes_exactly_one_backend_call sampleBackend "t" initState
    (some [("device_name", PyVal.str "ios-0")]) (PyVal.str "ios-0") rfl

/-- C7: all four tools are read-only on the server side: the NSO client
configuration, the devices helper, and the FastMCP registry are the same
after any invocation, for any parameters and any backend outcome. -/
theorem c7_tools_leave_server_state_unchanged
    (backend : Backend) (ts : String) (params : Option (List (String × PyVal)))
    (s : ServerState) :
    (McpServer.get_device_ned_ids backend ts s).2.config = s.config
    ∧ (McpServer.get_device_platform backend ts params s).2.config = s.config
    ∧ (CiscoNsoMcpServer.get_device_ned_ids_tool backend ts params s).2.config
        = s.config
    ∧ (CiscoNsoMcpServer.get_device_platform_tool backend ts params s).2.config
        = s.config := by
  refine ⟨?_, ?_, ?_, ?_⟩
  · unfold McpServer.get_device_ned_ids
    simp only [callNedIds, asyncioToThread]
    cases backend.nedIds s.nedBackendCalls with
    | ok ids => rfl
    | error e =>
        by_cases he : e.matchesValueHttpRequest <;> simp [he, ServerState.config]
  · unfold McpServer.get_device_platform
    cases hv : validatedDeviceName params with
    | none => rfl
    | some dn =>
        simp only [callPlatform, asyncioToThread]
        cases backend.platform s.platformBackendCalls.length dn with
        | ok v => rfl
        | error e =>
            by_cases he : e.matchesValueHttpRequest <;> simp [he, ServerState.config]
  · unfold CiscoNsoMcpServer.get_device_ned_ids_tool Services.get_device_ned_ids
    simp only [callNedIds, asyncioToThread]
    cases backend.nedIds s.nedBackendCalls with
    | ok ids => rfl
    | error e =>
        by_cases he : e.matchesValueRequest <;> simp [he, ServerState.config]
  · unfold CiscoNsoMcpServer.get_device_platform_tool Services.get_device_platform
    cases hv : validatedDeviceName params with
    | none => rfl
    | some dn =>
        by_cases ht : dn.truthy
        · simp only [ht, callPlatform, asyncioToThread]
          cases backend.platform s.platformBackendCalls.length dn with
          | ok v => simp [ServerState.config]
          | error e => simp [ServerState.config]
        · simp [ht, ServerState.config]

/-- C8: when `params` is `None`, empty, or lacks `device_name`, both
platform tools return exactly the missing-parameter error dict and leave
the state untouched, so in particular no backend call is made. -/
theorem c8_missing_device_name_short_circuits
    (backend : Backend) (ts : String) (params : Option (List (String × PyVal)))
    (s : ServerState) (h : validatedDeviceName params = Option.none) :
    McpServer.get_device_platform backend ts params s
      = (PyVal.dict
          [("status", .str "error"),
           ("error_message", .str "Missing required parameter: device_name")], s)
    ∧ CiscoNsoMcpServer.get_device_platform_tool backend ts params s
      = (PyVal.dict
          [("status", .str "error"),
           ("error_message", .str "Missing required parameter: device_name")], s) := by
  constructor
  · unfold McpServer.get_device_platform
    rw [h]
  · unfold CiscoNsoMcpServer.get_device_platform_tool
    rw [h]

/-- Witness for C8 at each of the three concrete parameter shapes the
claim names: `None`, the empty dict, and a dict without `device_name`. -/
theorem c8_witness :
    McpServer.get_device_platform sampleBackend "t" Option.none initState
      = (PyVal.dict
          [("status", .str "error"),
           ("error_message", .str "Missing required parameter: device_name")],
         initState)
    ∧ CiscoNsoMcpServer.get_device_platform_tool sampleBackend "t" (some []) initState
      = (PyVal.dict
          [("status", .str "error"),
           ("error_message", .str "Missing required parameter: device_name")],
         initState)
    ∧ McpServer.get_device_platform sampleBackend "t"
        (some [("device", PyVal.str "ios-0")]) initState
      = (PyVal.dict
          [("status", .str "error"),
           ("error_message", .str "Missing required parameter: device_name")],
         initState) :=
  ⟨(c8_missing_device_name_short_circuits sampleBackend "t" Option.none initState
      rfl).1,
   (c8_missing_device_name_short_circuits sampleBackend "t" (some []) initState
      rfl).2,
   (c8_missing_device_name_short_circuits sampleBackend "t"
      (some [("device", PyVal.str "ios-0")]) initState rfl).1⟩

/-- C9: with the timestamp fixed to a common value (the only
environment-dependent field), the inline `get_device_ned_ids` of
`src/mcp_server.py` and the delegating `get_device_ned_ids_tool` of
`src/cisco_nso_mcp_server/server.py` composed with
`src/services/devices.py` return equal response dicts for every backend
behaviour — every returned list and every raised exception.  The catch
clauses differ textually (`HTTPError` is listed only inline) but agree
because `HTTPError` is a subclass of `RequestException`. -/
theorem c9_inline_and_delegating_ned_ids_agree
    (backend : Backend) (ts : String) (params : Option (List (String × PyVal)))
    (s : ServerState) :
    (McpServer.get_device_ned_ids backend ts s).1
      = (CiscoNsoMcpServer.get_device_ned_ids_tool backend ts params s).1 := by
  unfold McpServer.get_device_ned_ids CiscoNsoMcpServer.get_device_ned_ids_tool
    Services.get_device_ned_ids
  simp only [callNedIds, asyncioToThread]
  cases backend.nedIds s.nedBackendCalls with
  | ok ids => rfl
  | error e => cases e <;> rfl

/-- C10: whenever either `get_device_ned_ids` tool answers with status
`success`, the `metadata.count` field equals the length of the list under
`data.device_ned_ids`. -/
theorem c10_success_count_matches_ned_ids_length
    (backend : Backend) (ts : String) (params : Option (List (String × PyVal)))
    (s : ServerState) :
    (responseStatus (McpServer.get_device_ned_ids backend ts s).1
        = some (.str "success") →
      ∃ xs : List PyVal,
        dataNedIds (McpServer.get_device_ned_ids backend ts s).1
          = some (.list xs)
        ∧ metaCount (McpServer.get_device_ned_ids backend ts s).1
          = some (.nat xs.length))
    ∧ (responseStatus (CiscoNsoMcpServer.get_device_ned_ids_tool backend ts params s).1
        = some (.str "success") →
      ∃ xs : List PyVal,
        dataNedIds (CiscoNsoMcpServer.get_device_ned_ids_tool backend ts params s).1
          = some (.list xs)
        ∧ metaCount (CiscoNsoMcpServer.get_device_ned_ids_tool backend ts params s).1
          = some (.nat xs.length)) := by
  constructor
  · intro hs
    unfold McpServer.get_device_ned_ids at *
    simp only [callNedIds, asyncioToThread] at *
    cases hb : backend.nedIds s.nedBackendCalls with
    | ok ids =>
        refine ⟨ids.map PyVal.str, ?_, ?_⟩
        · simp [hb, dataNedIds, PyVal.lookup, List.lookup]
        · simp [hb, metaCount, PyVal.lookup, List.lookup]
    | error e =>
        rw [hb] at hs
        by_cases he : e.matchesValueHttpRequest <;>
          simp [he, responseStatus, PyVal.lookup, List.lookup] at hs
  · intro hs
    unfold CiscoNsoMcpServer.get_device_ned_ids_tool Services.get_device_ned_ids at *
    simp only [callNedIds, asyncioToThread] at *
    cases hb : backend.nedIds s.nedBackendCalls with
    | ok ids =>
        refine ⟨ids.map PyVal.str, ?_, ?_⟩
        · simp [hb, dataNedIds, PyVal.lookup, List.lookup]
        · simp [hb, metaCount, PyVal.lookup, List.lookup]
    | error e =>
        rw [hb] at hs
        by_cases he : e.matchesValueRequest <;>
          simp [he, responseStatus, PyVal.lookup, List.lookup] at hs

/-- Witness for C10 at a concrete backend returning two NED IDs. -/
theorem c10_witness :
    ∃ xs : List PyVal,
      dataNedIds (McpServer.get_device_ned_ids sampleBackend "t" initState).1
        = some (.list xs)
      ∧ metaCount (McpServer.get_device_ned_ids sampleBackend "t" initState).1
        = some (.nat xs.length) :=
  (c10_success_count_matches_ned_ids_length sampleBackend "t" Option.none
    initState).1 rfl

/-- C4: each server variant registers exactly two tools — the NED-IDs tool
and the single-device platform tool — and dispatch by name hits a tool
only for those two registered names. -/
theorem c4_exactly_two_tools_registered
    (backend : Backend) (ts : String) (params : Option (List (String × PyVal)))
    (s : ServerState) :
    McpServer.mcp.tools
      = [{ name := "get_device_ned_ids" }, { name := "get_device_platform" }]
    ∧ McpServer.mcp.tools.length = 2
    ∧ CiscoNsoMcpServer.mcpAfterMain.tools
      = [{ name := "get_device_platform_tool" }, { name := "get_device_ned_ids_tool" }]
    ∧ CiscoNsoMcpServer.mcpAfterMain.tools.length = 2
    ∧ McpServer.dispatch backend ts "get_device_ned_ids" params s
      = some (McpServer.get_device_ned_ids backend ts s)
    ∧ McpServer.dispatch backend ts "get_device_platform" params s
      = some (McpServer.get_device_platform backend ts params s)
    ∧ ∀ n : String, n ∉ McpServer.mcp.tools.map ToolReg.name →
        McpServer.dispatch backend ts n params s = Option.none := by
  refine ⟨rfl, rfl, rfl, rfl, rfl, rfl, ?_⟩
  intro n hn
  unfold McpServer.dispatch
  rw [if_neg, if_neg]
  · intro h
    exact hn (by simp [McpServer.mcp, FastMCP.addTool, h])
  · intro h
    exact hn (by simp [McpServer.mcp, FastMCP.addTool, h])

/-- Witness for C4: a name outside the registry dispatches to no tool. -/
theorem c4_witness :
    McpServer.dispatch sampleBackend "t" "get_device_config" Option.none initState
      = Option.none :=
  (c4_exactly_two_tools_registered sampleBackend "t" Option.none
    initState).2.2.2.2.2.2 "get_device_config" (by decide)

/-- C2: every invocation of any of the four tools returns a dict — no
exception escapes to the MCP framework — and whenever a step inside the
tool raises, the returned dict has status `error` and an `error_message`
containing the text of the raised exception.  The last conjunct covers the
one raising step that is not the backend call: the falsy-device-name guard
of the service layer. -/
theorem c2_tools_return_error_dict_on_exception
    (backend : Backend) (ts : String) (params : Option (List (String × PyVal)))
    (s : ServerState) (e : PyExc) (dn : PyVal) :
    (McpServer.get_device_ned_ids backend ts s).1.isDict = true
    ∧ (McpServer.get_device_platform backend ts params s).1.isDict = true
    ∧ (CiscoNsoMcpServer.get_device_ned_ids_tool backend ts params s).1.isDict = true
    ∧ (CiscoNsoMcpServer.get_device_platform_tool backend ts params s).1.isDict = true
    ∧ (backend.nedIds s.nedBackendCalls = .error e →
        responseStatus (McpServer.get_device_ned_ids backend ts s).1
          = some (.str "error")
        ∧ ∃ p q, responseErrMsg (McpServer.get_device_ned_ids backend ts s).1
            = some (.str (p ++ e.msg ++ q)))
    ∧ (validatedDeviceName params = some dn →
        backend.platform s.platformBackendCalls.length dn = .error e →
        responseStatus (McpServer.get_device_platform backend ts params s).1
          = some (.str "error")
        ∧ ∃ p q, responseErrMsg (McpServer.get_device_platform backend ts params s).1
            = some (.str (p ++ e.msg ++ q)))
    ∧ (backend.nedIds s.nedBackendCalls = .error e →
        responseStatus (CiscoNsoMcpServer.get_device_ned_ids_tool backend ts params s).1
          = some (.str "error")
        ∧ ∃ p q,
            responseErrMsg (CiscoNsoMcpServer.get_device_ned_ids_tool backend ts params s).1
              = some (.str (p ++ e.msg ++ q)))
    ∧ (validatedDeviceName params = some dn → dn.truthy = true →
        backend.platform s.platformBackendCalls.length dn = .error e →
        responseStatus (CiscoNsoMcpServer.get_device_platform_tool backend ts params s).1
          = some (.str "error")
        ∧ ∃ p q,
            responseErrMsg (CiscoNsoMcpServer.get_device_platform_tool backend ts params s).1
              = some (.str (p ++ e.msg ++ q)))
    ∧ (validatedDeviceName params = some dn → dn.truthy = false →
        responseStatus (CiscoNsoMcpServer.get_device_platform_tool backend ts params s).1
          = some (.str "error")
        ∧ responseErrMsg (CiscoNsoMcpServer.get_device_platform_tool backend ts params s).1
          = some (.str "Device name is required")) := by
  refine ⟨?_, ?_, ?_, ?_, ?_, ?_, ?_, ?_, ?_⟩
  · unfold McpServer.get_device_ned_ids
    simp only [callNedIds, asyncioToThread]
    cases backend.nedIds s.nedBackendCalls with
    | ok ids => rfl
    | error e => by_cases he : e.matchesValueHttpRequest <;> simp [he, PyVal.isDict]
  · unfold McpServer.get_device_platform
    cases validatedDeviceName params with
    | none => rfl
    | some d =>
        simp only [callPlatform, asyncioToThread]
        cases backend.platform s.platformBackendCalls.length d with
        | ok v => rfl
        | error e =>
            by_cases he : e.matchesValueHttpRequest <;> simp [he, PyVal.isDict]
  · unfold CiscoNsoMcpServer.get_device_ned_ids_tool Services.get_device_ned_ids
    simp only [callNedIds, asyncioToThread]
    cases backend.nedIds s.nedBackendCalls with
    | ok ids => rfl
    | error e => by_cases he : e.matchesValueRequest <;> simp [he, PyVal.isDict]
  · unfold CiscoNsoMcpServer.get_device_platform_tool Services.get_device_platform
    cases validatedDeviceName params with
    | none => rfl
    | some d =>
        by_cases ht : d.truthy
        · simp only [ht, callPlatform, asyncioToThread]
          cases backend.platform s.platformBackendCalls.length d with
          | ok v => simp [PyVal.isDict]
          | error e => simp [PyVal.isDict]
        · simp [ht, PyVal.isDict]
  · intro hb
    unfold McpServer.get_device_ned_ids
    simp only [callNedIds, asyncioToThread, hb]
    by_cases he : e.matchesValueHttpRequest
    · exact ⟨by simp [he, responseStatus, PyVal.lookup, List.lookup],
        "", "", by simp [he, responseErrMsg, PyVal.lookup, List.lookup]⟩
    · exact ⟨by simp [he, responseStatus, PyVal.lookup, List.lookup],
        "Unexpected error: ", "",
        by simp [he, responseErrMsg, PyVal.lookup, List.lookup]⟩
  · intro hv hb
    unfold McpServer.get_device_platform
    simp only [hv, callPlatform, asyncioToThread, hb]
    by_cases he : e.matchesValueHttpRequest
    · exact ⟨by simp [he, responseStatus, PyVal.lookup, List.lookup],
        "", "", by simp [he, responseErrMsg, PyVal.lookup, List.lookup]⟩
    · exact ⟨by simp [he, responseStatus, PyVal.lookup, List.lookup],
        "Unexpected error: ", "",
        by simp [he, responseErrMsg, PyVal.lookup, List.lookup]⟩
  · intro hb
    unfold CiscoNsoMcpServer.get_device_ned_ids_tool Services.get_device_ned_ids
    simp only [callNedIds, asyncioToThread, hb]
    by_cases he : e.matchesValueRequest
    · exact ⟨by simp [he, responseStatus, PyVal.lookup, List.lookup],
        "", "", by simp [he, responseErrMsg, PyVal.lookup, List.lookup]⟩
    · exact ⟨by simp [he, responseStatus, PyVal.lookup, List.lookup],
        "Unexpected error: ", "",
        by simp [he, responseErrMsg, PyVal.lookup, List.lookup]⟩
  · intro hv ht hb
    unfold CiscoNsoMcpServer.get_device_platform_tool Services.get_device_platform
    simp only [hv, ht, callPlatform, asyncioToThread, hb]
    refine ⟨by simp [responseStatus, PyVal.lookup, List.lookup],
      "Failed to retrieve platform for device " ++ dn.pyStr ++ ": ", "", ?_⟩
    simp [responseErrMsg, PyVal.lookup, List.lookup, PyExc.msg, String.append_assoc]
  · intro hv ht
    unfold CiscoNsoMcpServer.get_device_platform_tool Services.get_device_platform
    simp only [hv, ht]
    exact ⟨by simp [responseStatus, PyVal.lookup, List.lookup],
      by simp [responseErrMsg, PyVal.lookup, List.lookup, PyExc.msg]⟩

/-- Witness for C2: concrete raising backend, concrete parameters, with
every hypothesis discharged. -/
theorem c2_witness :
    (responseStatus (McpServer.get_device_ned_ids failingBackend "t" initState).1
        = some (.str "error")
      ∧ ∃ p q, responseErrMsg (McpServer.get_device_ned_ids failingBackend "t" initState).1
          = some (.str (p ++ "401 Client Error" ++ q)))
    ∧ (responseStatus (CiscoNsoMcpServer.get_device_platform_tool failingBackend "t"
          (some [("device_name", PyVal.str "ios-0")]) initState).1
        = some (.str "error")
      ∧ ∃ p q,
          responseErrMsg (CiscoNsoMcpServer.get_device_platform_tool failingBackend "t"
              (some [("device_name", PyVal.str "ios-0")]) initState).1
            = some (.str (p ++ "404 Client Error" ++ q))) :=
  ⟨(c2_tools_return_error_dict_on_exception failingBackend "t"
      (some [("device_name", PyVal.str "ios-0")]) initState
      (PyExc.httpError "401 Client Error") (PyVal.str "ios-0")).2.2.2.2.1 rfl,
   (c2_tools_return_error_dict_on_exception failingBackend "t"
      (some [("device_name", PyVal.str "ios-0")]) initState
      (PyExc.httpError "404 Client Error") (PyVal.str "ios-0")).2.2.2.2.2.2.2.1
      rfl rfl rfl⟩

/-- Whatever branch `render_chat` takes, the first request carries the
history extended by the user message, with tools and without streaming. -/
lemma renderChatPrompt_firstRequest (json : JsonLib) (history : List Msg)
    (prompt : String) (firstResp : LLMMessage)
    (oracle : String → PyVal → PyVal) (chunks : List Chunk) :
    (App.renderChatPrompt json history prompt firstResp oracle chunks).firstRequest
      = { messages := history ++ [Msg.user prompt], toolsGiven := true
          stream := false } := by
  unfold App.renderChatPrompt
  dsimp only
  split
  · split <;> rfl
  · split <;> rfl

/-- Whatever branch `process_query` takes, the first request carries the
fresh system-plus-user message list, with tools and without streaming. -/
lemma process_query_firstRequest (json : JsonLib) (sp query : String)
    (firstResp : LLMMessage) (oracle : String → PyVal → PyVal)
    (chunks : List Chunk) :
    (TestClient.process_query json sp query firstResp oracle chunks).firstRequest
      = { messages := [Msg.system sp, Msg.user query], toolsGiven := true
          stream := false } := by
  unfold TestClient.process_query
  cases firstResp.content with
  | none => dsimp only; split <;> rfl
  | some c => rfl

/-- C6: a non-empty prompt is handled, appended unchanged as a user
message after the prior history, and the first LLM request sends exactly
that list (in `app.py` the history starts with the system prompt set up in
`configure`; `mcp_test_client.py` builds the system-plus-query list
directly). -/
theorem c6_prompt_appended_and_sent_with_history
    (json : JsonLib) (history : List Msg) (prompt : String)
    (firstResp : LLMMessage) (oracle : String → PyVal → PyVal)
    (chunks : List Chunk) (sp query : String)
    (hp : prompt ≠ "") :
    (∃ o : App.ChatOutcome,
      App.handleUserInput json history prompt firstResp oracle chunks = some o
      ∧ o.firstRequest.messages = history ++ [Msg.user prompt]
      ∧ Msg.user prompt ∈ o.firstRequest.messages
      ∧ o.firstRequest.toolsGiven = true
      ∧ o.firstRequest.stream = false)
    ∧ (TestClient.process_query json sp query firstResp oracle chunks).firstRequest.messages
        = [Msg.system sp, Msg.user query] := by
  constructor
  · refine ⟨App.renderChatPrompt json history prompt firstResp oracle chunks, ?_, ?_, ?_, ?_, ?_⟩
    · unfold App.handleUserInput
      simp [hp]
    · rw [renderChatPrompt_firstRequest]
    · rw [renderChatPrompt_firstRequest]
      simp
    · rw [renderChatPrompt_firstRequest]
    · rw [renderChatPrompt_firstRequest]
  · rw [process_query_firstRequest]

/-- Witness for C6 at a concrete prompt and history. -/
theorem c6_witness :
    (∃ o : App.ChatOutcome,
      App.handleUserInput sampleJson [Msg.system "sys"] "what are the ned ids"
          { content := some "two ids", tool_calls := [] } sampleOracle [] = some o
      ∧ o.firstRequest.messages
          = [Msg.system "sys"] ++ [Msg.user "what are the ned ids"]
      ∧ Msg.user "what are the ned ids" ∈ o.firstRequest.messages
      ∧ o.firstRequest.toolsGiven = true
      ∧ o.firstRequest.stream = false)
    ∧ (TestClient.process_query sampleJson "sys" "what are the ned ids"
        { content := some "two ids", tool_calls := [] } sampleOracle
        []).firstRequest.messages
        = [Msg.system "sys", Msg.user "what are the ned ids"] :=
  c6_prompt_appended_and_sent_with_history sampleJson [Msg.system "sys"]
    "what are the ned ids" { content := some "two ids", tool_calls := [] }
    sampleOracle [] "sys" "what are the ned ids" (by decide)

/-- C3 as stated is false: both clients execute tool calls only when the
first response also has no content (`if not has_content and
has_tool_calls` in `app.py`, `if content is None` in
`mcp_test_client.py`).  At a first response carrying both content and a
tool call, nothing is executed and no tool message is appended. -/
theorem c3_counterexample :
    (App.renderChatPrompt sampleJson [] "q"
        { content := some "hello"
          tool_calls := [{ id := "1", name := "get_device_ned_ids", arguments := "" }] }
        sampleOracle []).executedCalls = []
    ∧ (TestClient.process_query sampleJson "sys" "q"
        { content := some "hello"
          tool_calls := [{ id := "1", name := "get_device_ned_ids", arguments := "" }] }
        sampleOracle []).executedCalls = []
    ∧ ({ content := some "hello"
         tool_calls := [{ id := "1", name := "get_device_ned_ids", arguments := "" }] }
        : LLMMessage).tool_calls ≠ [] :=
  ⟨rfl, rfl, by decide⟩

/-- C3 amended: whenever the first response requests tool calls AND has no
content, each client executes every requested tool call through the MCP
session, in request order, and appends the assistant tool-call message and
the tool-result message for each of them to the history sent in the
follow-up request. -/
theorem c3_amended_tool_calls_executed_and_recorded
    (json : JsonLib) (history : List Msg) (prompt : String)
    (firstResp : LLMMessage) (oracle : String → PyVal → PyVal)
    (chunks : List Chunk) (sp query : String)
    (hc : firstResp.content = Option.none) (ht : firstResp.tool_calls ≠ []) :
    (App.renderChatPrompt json history prompt firstResp oracle chunks).executedCalls
      = firstResp.tool_calls.map (fun tc => (tc.name, parseToolArgs json tc.arguments))
    ∧ (App.renderChatPrompt json history prompt firstResp oracle chunks).followupRequest
      = some { messages := (history ++ [Msg.user prompt])
                 ++ firstResp.tool_calls.flatMap (toolExchange json oracle)
               toolsGiven := false, stream := true }
    ∧ (TestClient.process_query json sp query firstResp oracle chunks).executedCalls
      = firstResp.tool_calls.map (fun tc => (tc.name, parseToolArgs json tc.arguments))
    ∧ (TestClient.process_query json sp query firstResp oracle chunks).followupRequest
      = some { messages := [Msg.system sp, Msg.user query]
                 ++ firstResp.tool_calls.flatMap (toolExchange json oracle)
               toolsGiven := false, stream := true } := by
  have ht2 : firstResp.tool_calls.isEmpty = false := by
    cases hx : firstResp.tool_calls with
    | nil => exact absurd hx ht
    | cons a l => rfl
  refine ⟨?_, ?_, ?_, ?_⟩
  · unfold App.renderChatPrompt
    by_cases hfc : streamConcat chunks == "" <;>
      simp [hc, ht2, hfc, toolCallLoop_spec]
  · unfold App.renderChatPrompt
    by_cases hfc : streamConcat chunks == "" <;>
      simp [hc, ht2, hfc, toolCallLoop_spec]
  · unfold TestClient.process_query
    simp [hc, ht2, toolCallLoop_spec]
  · unfold TestClient.process_query
    simp [hc, ht2, toolCallLoop_spec]

/-- Witness for the amended C3 at one concrete requested tool call. -/
theorem c3_witness :
    (App.renderChatPrompt sampleJson [] "q"
        { content := Option.none
          tool_calls := [{ id := "1", name := "get_device_ned_ids", arguments := "" }] }
        sampleOracle []).executedCalls
      = ([{ id := "1", name := "get_device_ned_ids", arguments := "" }]
          : List ToolCallReq).map
          (fun tc => (tc.name, parseToolArgs sampleJson tc.arguments)) :=
  (c3_amended_tool_calls_executed_and_recorded sampleJson [] "q"
    { content := Option.none
      tool_calls := [{ id := "1", name := "get_device_ned_ids", arguments := "" }] }
    sampleOracle [] "sys" "q" rfl (by decide)).1

/-- C5 as stated is false: when no chunk of the follow-up stream carries
content, `app.py` renders a fixed error message rather than the (empty)
concatenation of the content chunks. -/
theorem c5_counterexample :
    (App.renderChatPrompt sampleJson [] "q"
        { content := Option.none
          tool_calls := [{ id := "1", name := "get_device_ned_ids", arguments := "" }] }
        sampleOracle [{ content := Option.none }]).delivered
      = "No response content received from the model."
    ∧ (App.renderChatPrompt sampleJson [] "q"
        { content := Option.none
          tool_calls := [{ id := "1", name := "get_device_ned_ids", arguments := "" }] }
        sampleOracle [{ content := Option.none }]).delivered
      ≠ nonEmptyContentConcat [{ content := Option.none }] :=
  ⟨rfl, by intro h; exact absurd h (by decide)⟩

/-- C5 amended: after the tool-call branch both clients request the final
reply with streaming enabled; the reply delivered to the user equals the
concatenation, in arrival order, of the non-empty content chunks whenever
at least one such chunk arrives (`mcp_test_client.py` prints exactly that
concatenation even when it is empty), and `app.py` shows a fixed error
message when no content chunk arrives. -/
theorem c5_amended_streamed_reply_is_chunk_concatenation
    (json : JsonLib) (history : List Msg) (prompt : String)
    (firstResp : LLMMessage) (oracle : String → PyVal → PyVal)
    (chunks : List Chunk) (sp query : String)
    (hc : firstResp.content = Option.none) (ht : firstResp.tool_calls ≠ []) :
    (∃ req : LLMRequest,
      (App.renderChatPrompt json history prompt firstResp oracle chunks).followupRequest
        = some req ∧ req.stream = true)
    ∧ (nonEmptyContentConcat chunks ≠ "" →
        (App.renderChatPrompt json history prompt firstResp oracle chunks).delivered
          = nonEmptyContentConcat chunks)
    ∧ (nonEmptyContentConcat chunks = "" →
        (App.renderChatPrompt json history prompt firstResp oracle chunks).delivered
          = "No response content received from the model.")
    ∧ (∃ req : LLMRequest,
      (TestClient.process_query json sp query firstResp oracle chunks).followupRequest
        = some req ∧ req.stream = true)
    ∧ (TestClient.process_query json sp query firstResp oracle chunks).printed
        = nonEmptyContentConcat chunks := by
  have ht2 : firstResp.tool_calls.isEmpty = false := by
    cases hx : firstResp.tool_calls with
    | nil => exact absurd hx ht
    | cons a l => rfl
  refine ⟨?_, ?_, ?_, ?_, ?_⟩
  · refine ⟨{ messages := (toolCallLoop json oracle firstResp.tool_calls
        (history ++ [Msg.user prompt])).1, toolsGiven := false, stream := true },
      ?_, rfl⟩
    unfold App.renderChatPrompt
    by_cases hfc : streamConcat chunks == "" <;> simp [hc, ht2, hfc]
  · intro hne
    have hfc : (streamConcat chunks == "") = false := by
      rw [streamConcat_eq]
      simpa using hne
    unfold App.renderChatPrompt
    simp [hc, ht2, hfc, streamConcat_eq, hne]
  · intro hemp
    have hfc : (streamConcat chunks == "") = true := by
      rw [streamConcat_eq]
      simpa using hemp
    unfold App.renderChatPrompt
    simp [hc, ht2, hfc, hemp]
  · refine ⟨{ messages := (toolCallLoop json oracle firstResp.tool_calls
        [Msg.system sp, Msg.user query]).1, toolsGiven := false, stream := true },
      ?_, rfl⟩
    unfold TestClient.process_query
    simp [hc, ht2]
  · unfold TestClient.process_query
    simp [hc, ht2, streamConcat_eq]

/-- Witness for the amended C5 at a concrete two-chunk stream with one
empty and one content-free chunk interleaved. -/
theorem c5_witness :
    (App.renderChatPrompt sampleJson [] "q"
        { content := Option.none
          tool_calls := [{ id := "1", name := "get_device_ned_ids", arguments := "" }] }
        sampleOracle
        [{ content := some "NED " }, { content := Option.none },
         { content := some "" }, { content := some "ids" }]).delivered
      = nonEmptyContentConcat
          [{ content := some "NED " }, { content := Option.none },
           { content := some "" }, { content := some "ids" }] :=
  (c5_amended_streamed_reply_is_chunk_concatenation sampleJson [] "q"
    { content := Option.none
      tool_calls := [{ id := "1", name := "get_device_ned_ids", arguments := "" }] }
    sampleOracle
    [{ content := some "NED " }, { content := Option.none },
     { content := some "" }, { content := some "ids" }] "sys" "q" rfl
    (by decide)).2.1 (by decide)

end NsoMcp
